import Mathlib

/-! Verification development for the sara-chatbot repository.

The definitions below are a shallow embedding of the request-handling logic
in src/app/api/chat/route.ts and src/app/api/log/route.ts.  Floating-point
scores are modelled as rationals, JavaScript `undefined` as `Option`, thrown
exceptions as `Except`, and the external services (embedding, vector search,
chat completion, logging webhook) as components of an environment record.
`Array.prototype.sort` with a consistent comparator is required by the
ECMAScript standard to produce the sorted stable permutation, which is what
`List.insertionSort` computes, so the in-place sort in `buildContext` is
embedded through `List.insertionSort` on the comparator of the source. -/

namespace Chat

/-- JavaScript string disjunction `a || b`: the empty string is falsy. -/
def jsOr (a b : String) : String := if a = "" then b else a

/-- From src/lib/constants.ts. -/
def assistantName : String := "Sara"

/-- The `MatchResult` record type of the chat route. -/
structure MatchResult where
  id : String
  content : Option String
  chunk : Option String
  similarity : Option ℚ
  recency_score : Option ℚ
deriving DecidableEq

/-- The sort key used by the comparator in `buildContext`:
`(m.recency_score ?? 1) * (m.similarity ?? 0)`. -/
def combinedScore (m : MatchResult) : ℚ :=
  m.recency_score.getD 1 * m.similarity.getD 0

/-- `rankRel a b` holds when the comparator of `buildContext` allows `a`
to stand before `b`: `recB * simB - recA * simA <= 0`. -/
def rankRel (a b : MatchResult) : Prop :=
  combinedScore b ≤ combinedScore a

instance : DecidableRel rankRel :=
  fun a b => inferInstanceAs (Decidable (combinedScore b ≤ combinedScore a))

instance : IsTotal MatchResult rankRel :=
  ⟨fun _ _ => le_total _ _⟩

instance : IsTrans MatchResult rankRel :=
  ⟨fun _ _ _ h1 h2 => le_trans h2 h1⟩

/-- The stable descending sort performed by `matches.sort((a, b) => ...)`. -/
def sortMatches (ms : List MatchResult) : List MatchResult :=
  List.insertionSort rankRel ms

/-- The segment contributed by one candidate: `m.content || m.chunk || ''`. -/
def segText (m : MatchResult) : String :=
  jsOr (m.content.getD "") (jsOr (m.chunk.getD "") "")

/-- `buildContext` from the chat route (console logging omitted): on an empty
list it returns `""`; otherwise it sorts by the comparator and joins the
segments with a blank line. -/
def buildContext (ms : List MatchResult) : String :=
  if ms.isEmpty then ""
  else String.intercalate "\n\n" ((sortMatches ms).map segText)

/-- The contents of the caller array after `buildContext` returns:
`Array.prototype.sort` sorts in place, so unless the early-return for the
empty list fires, the array ends up reordered. -/
def buildContextPost (ms : List MatchResult) : List MatchResult :=
  if ms.isEmpty then ms else sortMatches ms

/-- The fixed persona-redirect string of `formatReply`. -/
def personaRedirect : String :=
  "Based on the information I have, I’m not sure about that. You might want to ask "
    ++ assistantName ++ " directly!"

/-- The fixed preamble prepended by `formatReply` when context is empty. -/
def noDetailsPreamble : String :=
  "I don’t have exact details on that, but here\x27s what I can share from the general context I know:\n\n"

/-- `t` is an initial run of `s` (character lists). -/
def leadsList : List Char → List Char → Bool
  | [], _ => true
  | _ :: _, [] => false
  | a :: as, b :: bs => (a == b) && leadsList as bs

/-- `t` occurs somewhere in `s` (character lists). -/
def occursIn : List Char → List Char → Bool
  | t, [] => leadsList t []
  | t, b :: bs => leadsList t (b :: bs) || occursIn t bs

/-- JavaScript `s.includes(t)`. -/
def strContains (s t : String) : Bool := occursIn t.data s.data

/-- JavaScript `s.startsWith(t)`. -/
def startsWithStr (s t : String) : Bool := leadsList t.data s.data

/-- JavaScript `s.trim()`: strip whitespace from both ends. -/
def trimStr (s : String) : String :=
  ⟨((s.data.dropWhile Char.isWhitespace).reverse.dropWhile Char.isWhitespace).reverse⟩

/-- JavaScript `s.toLowerCase()` on the characters of `s`. -/
def toLowerStr (s : String) : String := ⟨s.data.map Char.toLower⟩

/-- `formatReply` from the chat route. -/
def formatReply (reply contextText : String) : String :=
  if contextText = "" ∧ startsWithStr (trimStr reply) "Sorry" then personaRedirect
  else if contextText = "" then noDetailsPreamble ++ reply
  else reply

/-- The billing message returned for quota failures. -/
def quotaBillingMessage : String :=
  "OpenAI error: Your API key may have no credits left. Check your billing settings at https://platform.openai.com/account/billing."

/-- The generic completion-failure message. -/
def genericErrorMessage : String :=
  "Sorry, something went wrong. Please try rephrasing your question or come back later."

/-- `handleOpenAIError` from the chat route, on the message of the thrown
error: `errorMessage.toLowerCase().includes('quota')` selects the billing
message. -/
def handleOpenAIError (errorMessage : String) : String :=
  if strContains (toLowerStr errorMessage) "quota" then quotaBillingMessage
  else genericErrorMessage

/-- One entry of the prompt message list. -/
structure ChatMessage where
  role : String
  content : String
deriving DecidableEq

/-- The fixed system persona instruction of `buildPrompt`. -/
def systemInstruction : String :=
  "You are a helpful assistant trained on " ++ assistantName
    ++ "\x27s background. Answer questions clearly, concisely, and with just enough context to be useful. Use your judgment on tone and structure to keep replies very easily readable and informative. Slightly prioritize her most recent roles and accomplishments."

/-- `buildPrompt` from the chat route. -/
def buildPrompt (contextText message : String) : List ChatMessage :=
  [⟨"system", systemInstruction⟩,
   ⟨"user",
    if contextText ≠ "" then
      "Context:\n" ++ contextText ++ "\n\nQuestion: " ++ message
    else
      "Context:\n(no strong match)\n\nQuestion: " ++ message⟩]

/-- The external services the chat handler calls.  Each call either throws
(`Except.error` with the message of the error) or resolves. The completion
service may resolve with no content, in which case the handler substitutes
an ellipsis. -/
structure ChatEnv where
  embed : String → Except String (List ℚ)
  search : List ℚ → Except String (List MatchResult)
  complete : List ChatMessage → Except String (Option String)

/-- The observable outcome of one chat request: HTTP status, the reply body,
and which downstream steps were invoked. -/
structure ChatResult where
  status : Nat
  reply : String
  embedCalled : Bool
  searchCalled : Bool
  completeCalled : Bool
deriving DecidableEq

/-- The inner try/catch of the handlers: context text plus which of the two
enrichment calls ran.  A failure of either call is swallowed and leaves the
context text empty. -/
def enrichContext (env : ChatEnv) (message : String) (useEmbeddings : Bool) :
    String × Bool × Bool :=
  if useEmbeddings then
    match env.embed message with
    | .error _ => ("", true, false)
    | .ok v =>
      match env.search v with
      | .error _ => ("", true, true)
      | .ok found => (buildContext found, true, true)
  else ("", false, false)

/-- `handleProdChatRequest` from the chat route.  `message` is the `message`
field of the parsed body (`none` when absent); `useEmbeddings` is the value
of `searchParams.get('embeddings') !== 'false'`. -/
def handleProdChatRequest (env : ChatEnv) (message : Option String)
    (useEmbeddings : Bool) : ChatResult :=
  match message with
  | none => ⟨400, "No input.", false, false, false⟩
  | some msg =>
    if msg = "" then ⟨400, "No input.", false, false, false⟩
    else
      let ec := enrichContext env msg useEmbeddings
      match env.complete (buildPrompt ec.1 msg) with
      | .error e => ⟨500, handleOpenAIError e, ec.2.1, ec.2.2, true⟩
      | .ok content => ⟨200, formatReply (content.getD "…") ec.1, ec.2.1, ec.2.2, true⟩

/-- `handleDevChatRequest` from the chat route: its body is a verbatim copy
of the production handler. -/
def handleDevChatRequest (env : ChatEnv) (message : Option String)
    (useEmbeddings : Bool) : ChatResult :=
  match message with
  | none => ⟨400, "No input.", false, false, false⟩
  | some msg =>
    if msg = "" then ⟨400, "No input.", false, false, false⟩
    else
      let ec := enrichContext env msg useEmbeddings
      match env.complete (buildPrompt ec.1 msg) with
      | .error e => ⟨500, handleOpenAIError e, ec.2.1, ec.2.2, true⟩
      | .ok content => ⟨200, formatReply (content.getD "…") ec.1, ec.2.1, ec.2.2, true⟩

/-- The exported `POST` of the chat route: `CHAT_MODE || NODE_ENV` selects
the development handler on `development` or `dev`, the production handler
otherwise. -/
def chatPOST (chatMode nodeEnv : Option String) (env : ChatEnv)
    (message : Option String) (useEmbeddings : Bool) : ChatResult :=
  let mode := jsOr (chatMode.getD "") (nodeEnv.getD "")
  if mode = "development" ∨ mode = "dev" then
    handleDevChatRequest env message useEmbeddings
  else
    handleProdChatRequest env message useEmbeddings

end Chat

namespace Log

/-- The parsed body of a `POST /log` request.  The route destructures only
`userInput` and `botReply`; `email` and `sessionId` may be present in the
body but are never read. -/
structure LogBody where
  userInput : Option String
  botReply : Option String
  email : Option String
  sessionId : Option String
deriving DecidableEq

/-- The two headers the route reads (`null` when absent). -/
structure LogHeaders where
  xForwardedFor : Option String
  userAgent : Option String
deriving DecidableEq

/-- A resolved `fetch` response, of which the route observes nothing. -/
structure FetchResponse where
  ok : Bool
  status : Nat
deriving DecidableEq

/-- The response body and status produced by the route on the success path. -/
structure LogResponse where
  status : Nat
  logged : Bool
deriving DecidableEq

/-- The environment of the log route: the webhook URL variable and the
outcome of `fetch` on a given URL and serialized payload (`Except.error`
models a rejected promise, that is a network failure). -/
structure LogEnv where
  googleSheetsWebhookUrl : Option String
  webhookFetch : String → List (String × String) → Except String FetchResponse

/-- `JSON.stringify({ userInput, botReply, userAgent, ip })` as a key-value
list: `undefined` fields are dropped by serialization. -/
def serializePayload (userInput botReply : Option String)
    (userAgent ip : String) : List (String × String) :=
  (match userInput with
   | some s => [("userInput", s)]
   | none => []) ++
  (match botReply with
   | some s => [("botReply", s)]
   | none => []) ++
  [("userAgent", userAgent), ("ip", ip)]

/-- The payload the route forwards to the webhook for a given request. -/
def forwardedPayload (body : LogBody) (hdrs : LogHeaders) :
    List (String × String) :=
  serializePayload body.userInput body.botReply
    (Chat.jsOr (hdrs.userAgent.getD "") "unknown")
    (Chat.jsOr (hdrs.xForwardedFor.getD "") "unknown")

/-- The exported `POST` of the log route: it awaits the webhook `fetch`,
ignores the response entirely, and returns `{ logged: true }` with
status 200.  There is no try/catch, so a rejected `fetch` escapes the
handler (`Except.error`). -/
def logPOST (env : LogEnv) (body : LogBody) (hdrs : LogHeaders) :
    Except String LogResponse :=
  let webhookUrl := Chat.jsOr (env.googleSheetsWebhookUrl.getD "") "undefined"
  match env.webhookFetch webhookUrl (forwardedPayload body hdrs) with
  | .error e => .error e
  | .ok _ => .ok ⟨200, true⟩

end Log

namespace Chat

/-- A candidate with absent `content` but a non-empty `chunk`. -/
def mChunkOnly : MatchResult := ⟨"a", none, some "X", some 1, none⟩

/-- A candidate with neither `content` nor `chunk`. -/
def mEmptyCand : MatchResult := ⟨"n", none, none, some 1, some 1⟩

/-- Combined score `1 * 0 = 0`; listed first in the mutation counterexample. -/
def mLowFirst : MatchResult := ⟨"a", some "A", none, some 0, some 1⟩

/-- Combined score `1 * 1 = 1`; listed second in the mutation counterexample. -/
def mHighSecond : MatchResult := ⟨"b", some "B", none, some 1, some 1⟩

/-- An environment whose enrichment services are down while the completion
service answers normally. -/
def sampleChatEnv : ChatEnv :=
  ⟨fun _ => .error "embedding service down",
   fun _ => .error "search service down",
   fun _ => .ok (some "Hello!")⟩

/-- An environment whose completion call rejects with a quota message. -/
def quotaFailEnv : ChatEnv :=
  ⟨fun _ => .error "embedding service down",
   fun _ => .ok [],
   fun _ => .error "You exceeded your current quota, please check your plan and billing details."⟩

/-- The embedding step or the similarity-search step of a request throws. -/
def enrichmentFails (env : ChatEnv) (msg : String) : Prop :=
  (∃ e, env.embed msg = .error e) ∨
  (∃ v e, env.embed msg = .ok v ∧ env.search v = .error e)

end Chat

namespace Log

/-- A chat-interaction log body. -/
def sampleLogBody : LogBody := ⟨some "hello", some "world", none, none⟩

/-- A request carrying neither of the two headers the route reads. -/
def sampleLogHeaders : LogHeaders := ⟨none, none⟩

/-- A webhook that resolves with a non-2xx status. -/
def logEnvNon2xx : LogEnv :=
  ⟨some "https://example.org/webhook", fun _ _ => .ok ⟨false, 500⟩⟩

/-- A webhook whose fetch rejects (network failure). -/
def logEnvNetworkError : LogEnv :=
  ⟨some "https://example.org/webhook", fun _ _ => .error "fetch failed"⟩

/-- A webhook that resolves successfully. -/
def logEnvOk : LogEnv :=
  ⟨some "https://example.org/webhook", fun _ _ => .ok ⟨true, 200⟩⟩

/-- An email-submission log body. -/
def emailLogBody : LogBody := ⟨none, none, some "a@b.com", none⟩

end Log

namespace Chat

/-- Inserting `a` into any list preserves, for every score value `s`, the
subsequence of elements of combined score `s`, except that `a` itself is
placed in front when its score is `s`: skipped elements all have a strictly
larger score. -/
theorem filter_orderedInsert (s : ℚ) (a : MatchResult) (l : List MatchResult) :
    (List.orderedInsert rankRel a l).filter (fun m => decide (combinedScore m = s)) =
      if combinedScore a = s then
        a :: l.filter (fun m => decide (combinedScore m = s))
      else l.filter (fun m => decide (combinedScore m = s)) := by
  induction l with
  | nil =>
    by_cases ha : combinedScore a = s <;> simp [List.orderedInsert, ha]
  | cons b l ih =>
    by_cases hr : rankRel a b
    · rw [List.orderedInsert, if_pos hr]
      by_cases ha : combinedScore a = s <;> simp [List.filter_cons, ha]
    · rw [List.orderedInsert, if_neg hr]
      have hba : combinedScore a < combinedScore b := by
        by_contra hle
        exact hr (le_of_not_lt hle)
      by_cases ha : combinedScore a = s
      · have hb : ¬ combinedScore b = s := by
          rw [← ha]
          exact ne_of_gt hba
        simp [List.filter_cons, hb, ih, ha]
      · simp [List.filter_cons, ih, ha]

/-- Stability of the sort of `buildContext`: for every score value `s`, the
candidates of combined score exactly `s` appear in the sorted list in their
original relative order. -/
theorem filter_sortMatches (s : ℚ) (l : List MatchResult) :
    (sortMatches l).filter (fun m => decide (combinedScore m = s)) =
      l.filter (fun m => decide (combinedScore m = s)) := by
  induction l with
  | nil => rfl
  | cons a l ih =>
    show (List.orderedInsert rankRel a (List.insertionSort rankRel l)).filter _ = _
    rw [filter_orderedInsert]
    by_cases ha : combinedScore a = s <;> simp [ha, List.filter_cons] <;>
      exact ih

/-- Claim C1: for every candidate sequence, `buildContext` joins the
segments with a blank-line separator in descending order of
`combinedScore = recencyScore (default 1) * similarity (default 0)`; the
sorted sequence is a permutation of the input that is stable on exact score
ties (for each score value the original relative order is preserved), and
the empty candidate sequence yields exactly the empty string. -/
theorem buildContext_ranked_c1 (ms : List MatchResult) :
    buildContext [] = "" ∧
    (sortMatches ms).Perm ms ∧
    (sortMatches ms).Pairwise (fun a b => combinedScore b ≤ combinedScore a) ∧
    (∀ s : ℚ, (sortMatches ms).filter (fun m => decide (combinedScore m = s)) =
      ms.filter (fun m => decide (combinedScore m = s))) ∧
    buildContext ms = String.intercalate "\n\n" ((sortMatches ms).map segText) := by
  refine ⟨rfl, List.perm_insertionSort _ _, List.sorted_insertionSort rankRel ms,
    fun s => filter_sortMatches s ms, ?_⟩
  match ms with
  | [] => rfl
  | a :: l => simp [buildContext]

/-- Claim C2: `formatReply` implements exactly the three-case policy: empty
context and trimmed reply starting with "Sorry" yields the fixed
persona-redirect string; empty context otherwise yields the fixed preamble
concatenated with the reply verbatim; non-empty context returns the reply
unchanged. -/
theorem formatReply_policy_c2 (reply contextText : String) :
    (contextText = "" → startsWithStr (trimStr reply) "Sorry" = true →
      formatReply reply contextText = personaRedirect) ∧
    (contextText = "" → startsWithStr (trimStr reply) "Sorry" = false →
      formatReply reply contextText = noDetailsPreamble ++ reply) ∧
    (contextText ≠ "" → formatReply reply contextText = reply) := by
  refine ⟨?_, ?_, ?_⟩
  · intro h1 h2
    simp [formatReply, h1, h2]
  · intro h1 h2
    simp [formatReply, h1, h2]
  · intro h1
    simp [formatReply, h1]

/-- Witness for C2: each of the three branches evaluated at a concrete
input. -/
theorem formatReply_policy_c2_witness :
    formatReply "Sorry, I do not know." "" = personaRedirect ∧
    formatReply "Gladly!" "" = noDetailsPreamble ++ "Gladly!" ∧
    formatReply "Gladly!" "some context" = "Gladly!" :=
  ⟨(formatReply_policy_c2 "Sorry, I do not know." "").1 rfl (by decide),
   (formatReply_policy_c2 "Gladly!" "").2.1 rfl (by decide),
   (formatReply_policy_c2 "Gladly!" "some context").2.2 (by decide)⟩

/-- Claim C3 counterexample: a candidate whose `content` is absent but whose
`chunk` is `"X"` contributes the segment `"X"`, not the empty segment, and
`buildContext` on the singleton list containing it returns `"X"`, not the
empty string. -/
theorem buildContext_missing_content_c3_counterexample :
    mChunkOnly.content = none ∧ segText mChunkOnly = "X" ∧
    buildContext [mChunkOnly] = "X" ∧ ("X" : String) ≠ "" := by
  refine ⟨rfl, by decide, by decide, by decide⟩

/-- Claim C3 as amended: a candidate whose `content` is absent contributes
its `chunk` value as segment, and only when `chunk` is also absent does it
contribute the empty segment; empty segments are still joined, so two
empty candidates produce exactly one blank-line separator string. -/
theorem buildContext_missing_content_c3_amended :
    (∀ m : MatchResult, m.content = none → segText m = m.chunk.getD "") ∧
    (∀ m : MatchResult, m.content = none → m.chunk = none → segText m = "") ∧
    buildContext [mEmptyCand, mEmptyCand] = "\n\n" := by
  refine ⟨?_, ?_, ?_⟩
  · intro m h
    by_cases hc : m.chunk.getD "" = "" <;> simp [segText, jsOr, h, hc]
  · intro m h1 h2
    simp [segText, jsOr, h1, h2]
  · have hr : rankRel mEmptyCand mEmptyCand := le_refl _
    have hsort : sortMatches [mEmptyCand, mEmptyCand] = [mEmptyCand, mEmptyCand] := by
      simp [sortMatches, List.insertionSort, List.orderedInsert, hr]
    have hseg : segText mEmptyCand = "" := by decide
    simp [buildContext, hsort, hseg]
    decide

/-- Witness for the amended C3, at the concrete chunk-only candidate. -/
theorem buildContext_missing_content_c3_amended_witness :
    segText mChunkOnly = "X" := by
  have h := buildContext_missing_content_c3_amended.1 mChunkOnly rfl
  simpa using h

/-- Claim C4 counterexample: on a two-element input listed in ascending
combined-score order, the in-place sort of `buildContext` leaves the caller
array reordered, so the input sequence is not left unchanged. -/
theorem buildContext_pure_c4_counterexample :
    buildContextPost [mLowFirst, mHighSecond] ≠ [mLowFirst, mHighSecond] := by
  have h : ¬ rankRel mLowFirst mHighSecond := by
    simp [rankRel, combinedScore, mLowFirst, mHighSecond]
  have hs : buildContextPost [mLowFirst, mHighSecond] = [mHighSecond, mLowFirst] := by
    simp [buildContextPost, sortMatches, List.insertionSort, List.orderedInsert, h]
  rw [hs]
  decide

/-- Claim C4 as amended: `buildContext` reorders its input array in place
into descending combined-score order, but the array afterwards holds exactly
the original candidates (a permutation; no individual candidate is mutated),
and the returned string is unaffected by that reordering, so the call is
deterministic in the input values. -/
theorem buildContext_pure_c4_amended (ms : List MatchResult) :
    (buildContextPost ms).Perm ms ∧
    (buildContextPost ms).Pairwise (fun a b => combinedScore b ≤ combinedScore a) ∧
    buildContext (buildContextPost ms) = buildContext ms := by
  match ms with
  | [] => exact ⟨List.Perm.refl _, List.Pairwise.nil, rfl⟩
  | a :: l =>
    have hpost : buildContextPost (a :: l) = sortMatches (a :: l) := rfl
    have hsorted : (sortMatches (a :: l)).Pairwise
        (fun a b => combinedScore b ≤ combinedScore a) :=
      List.sorted_insertionSort rankRel (a :: l)
    have hidem : sortMatches (sortMatches (a :: l)) = sortMatches (a :: l) :=
      List.Sorted.insertionSort_eq hsorted
    have hlen : (sortMatches (a :: l)).length = l.length + 1 :=
      List.length_insertionSort _ _
    have hne : sortMatches (a :: l) ≠ [] := by
      intro hnil
      rw [hnil] at hlen
      exact absurd hlen (by simp)
    refine ⟨hpost ▸ List.perm_insertionSort _ _, hpost ▸ hsorted, ?_⟩
    rw [hpost]
    match hsm : sortMatches (a :: l) with
    | [] => exact absurd hsm hne
    | b :: m =>
      rw [buildContext, if_neg (by simp), buildContext, if_neg (by simp)]
      rw [← hsm, hidem, hsm]

/-- Reduction of the production handler for a non-empty message: the
response is determined by the completion call on the prompt built from the
enriched context. -/
theorem handleProd_reduce (env : ChatEnv) (msg : String) (u : Bool) (hmsg : msg ≠ "") :
    handleProdChatRequest env (some msg) u =
      match env.complete (buildPrompt (enrichContext env msg u).1 msg) with
      | .error e =>
        ⟨500, handleOpenAIError e, (enrichContext env msg u).2.1,
          (enrichContext env msg u).2.2, true⟩
      | .ok content =>
        ⟨200, formatReply (content.getD "…") (enrichContext env msg u).1,
          (enrichContext env msg u).2.1, (enrichContext env msg u).2.2, true⟩ := by
  simp [handleProdChatRequest, hmsg]

/-- Claim C5: a chat request whose `message` is absent or empty yields
status 400 with reply exactly "No input.", and none of the downstream steps
(embedding, search, completion) is invoked — in either handler branch of
`POST`, for every environment. -/
theorem chatPOST_no_input_c5 (chatMode nodeEnv : Option String) (env : ChatEnv)
    (useEmbeddings : Bool) (message : Option String)
    (h : message = none ∨ message = some "") :
    chatPOST chatMode nodeEnv env message useEmbeddings =
      ⟨400, "No input.", false, false, false⟩ := by
  rcases h with h | h <;> subst h <;>
    · simp only [chatPOST]
      split <;> rfl

/-- Witness for C5 at an absent message. -/
theorem chatPOST_no_input_c5_witness :
    chatPOST none none sampleChatEnv none true = ⟨400, "No input.", false, false, false⟩ :=
  chatPOST_no_input_c5 none none sampleChatEnv true none (Or.inl rfl)

/-- Claim C6: when the embedding step or the search step throws, the
handler proceeds with an empty context block, its response (status and
reply) is identical to the one of a run with enrichment disabled, and the
failure alone never produces a 500: whenever the completion succeeds the
status is 200. -/
theorem chat_enrichment_best_effort_c6 (env : ChatEnv) (msg : String)
    (hmsg : msg ≠ "") (hfail : enrichmentFails env msg) :
    (enrichContext env msg true).1 = "" ∧
    (handleProdChatRequest env (some msg) true).status =
      (handleProdChatRequest env (some msg) false).status ∧
    (handleProdChatRequest env (some msg) true).reply =
      (handleProdChatRequest env (some msg) false).reply ∧
    (∀ c, env.complete (buildPrompt "" msg) = .ok c →
      (handleProdChatRequest env (some msg) true).status = 200) := by
  have hctx : (enrichContext env msg true).1 = "" := by
    rcases hfail with ⟨e, he⟩ | ⟨v, e, hv, hs⟩
    · simp [enrichContext, he]
    · simp [enrichContext, hv, hs]
  have hctx0 : (enrichContext env msg false).1 = "" := rfl
  rw [handleProd_reduce env msg true hmsg, handleProd_reduce env msg false hmsg, hctx, hctx0]
  refine ⟨rfl, ?_, ?_, ?_⟩ <;>
    cases hc : env.complete (buildPrompt "" msg) <;> simp [hc]

/-- Witness for C6: with both enrichment services down and a working
completion, the request still succeeds with status 200. -/
theorem chat_enrichment_best_effort_c6_witness :
    (handleProdChatRequest sampleChatEnv (some "Does she know GTM?") true).status = 200 :=
  (chat_enrichment_best_effort_c6 sampleChatEnv "Does she know GTM?" (by decide)
    (Or.inl ⟨"embedding service down", rfl⟩)).2.2.2 (some "Hello!") rfl

/-- Claim C7: when the completion call throws, the handler returns
status 500; if the error message contains "quota" case-insensitively the
reply contains the billing-check phrase, otherwise the reply is the fixed
user-readable fallback string.  No exception escapes: the handler is a
total function into responses. -/
theorem chat_completion_failure_c7 (env : ChatEnv) (msg : String) (u : Bool) (e : String)
    (hmsg : msg ≠ "")
    (hc : env.complete (buildPrompt (enrichContext env msg u).1 msg) = .error e) :
    (handleProdChatRequest env (some msg) u).status = 500 ∧
    (strContains (toLowerStr e) "quota" = true →
      strContains (handleProdChatRequest env (some msg) u).reply
        "Check your billing settings" = true) ∧
    (strContains (toLowerStr e) "quota" = false →
      (handleProdChatRequest env (some msg) u).reply = genericErrorMessage) := by
  rw [handleProd_reduce env msg u hmsg, hc]
  refine ⟨rfl, ?_, ?_⟩
  · intro hq
    simp only [handleOpenAIError, hq, if_true]
    decide
  · intro hq
    simp [handleOpenAIError, hq]

/-- Witness for C7 at a concrete quota failure. -/
theorem chat_completion_failure_c7_witness :
    (handleProdChatRequest quotaFailEnv (some "hi") true).status = 500 ∧
    strContains (handleProdChatRequest quotaFailEnv (some "hi") true).reply
      "Check your billing settings" = true :=
  ⟨(chat_completion_failure_c7 quotaFailEnv "hi" true
      "You exceeded your current quota, please check your plan and billing details."
      (by decide) rfl).1,
   (chat_completion_failure_c7 quotaFailEnv "hi" true
      "You exceeded your current quota, please check your plan and billing details."
      (by decide) rfl).2.1 (by decide)⟩

/-- Claim C10: the development handler and the production handler are the
same function, so the `CHAT_MODE`/`NODE_ENV` branch in `POST` never changes
the observable response. -/
theorem chat_dev_prod_equivalent_c10 (chatMode nodeEnv : Option String) (env : ChatEnv)
    (message : Option String) (useEmbeddings : Bool) :
    handleDevChatRequest env message useEmbeddings =
      handleProdChatRequest env message useEmbeddings ∧
    chatPOST chatMode nodeEnv env message useEmbeddings =
      handleProdChatRequest env message useEmbeddings := by
  refine ⟨rfl, ?_⟩
  simp only [chatPOST]
  split <;> rfl

end Chat

namespace Log

/-- Claim C8 counterexample: with the webhook resolving non-2xx the log
route still answers 200 `{logged:true}`, and with the webhook rejecting
(network error) the exception escapes the handler; neither case produces
the 500 `{error:"Failed to log"}` response the claim demands. -/
theorem log_webhook_failure_c8_counterexample :
    logPOST logEnvNon2xx sampleLogBody sampleLogHeaders = .ok ⟨200, true⟩ ∧
    logPOST logEnvNetworkError sampleLogBody sampleLogHeaders = .error "fetch failed" ∧
    (200 : Nat) ≠ 500 :=
  ⟨rfl, rfl, by decide⟩

/-- Claim C8 as amended: the log route ignores the webhook response status —
any resolved fetch, 2xx or not, yields 200 `{logged:true}` — and a rejected
fetch escapes the handler as an uncaught exception; no 500
`{error:"Failed to log"}` response exists in the route. -/
theorem log_webhook_failure_c8_amended (env : LogEnv) (body : LogBody)
    (hdrs : LogHeaders) :
    (∀ r, env.webhookFetch (Chat.jsOr (env.googleSheetsWebhookUrl.getD "") "undefined")
        (forwardedPayload body hdrs) = .ok r →
      logPOST env body hdrs = .ok ⟨200, true⟩) ∧
    (∀ e, env.webhookFetch (Chat.jsOr (env.googleSheetsWebhookUrl.getD "") "undefined")
        (forwardedPayload body hdrs) = .error e →
      logPOST env body hdrs = .error e) := by
  constructor <;> intro x hx <;> simp [logPOST, hx]

/-- Witness for the amended C8 at the non-2xx webhook. -/
theorem log_webhook_failure_c8_amended_witness :
    logPOST logEnvNon2xx sampleLogBody sampleLogHeaders = .ok ⟨200, true⟩ :=
  (log_webhook_failure_c8_amended logEnvNon2xx sampleLogBody sampleLogHeaders).1
    ⟨false, 500⟩ rfl

/-- Claim C9 is contradicted by the code: the log route never selects an
email-shaped payload.  The forwarded record never carries an `email` key for
any body, and at the failing input `{email:"a@b.com"}` the route forwards
only `{userAgent, ip}` (the absent `userInput`/`botReply` are dropped by
serialization) and still reports `{logged:true}`. -/
theorem log_email_never_forwarded_c9 :
    (∀ body hdrs, ((forwardedPayload body hdrs).map Prod.fst).contains "email" = false) ∧
    forwardedPayload emailLogBody sampleLogHeaders =
      [("userAgent", "unknown"), ("ip", "unknown")] ∧
    logPOST logEnvOk emailLogBody sampleLogHeaders = .ok ⟨200, true⟩ := by
  refine ⟨?_, by decide, rfl⟩
  intro body hdrs
  rcases body with ⟨ui, br, em, sid⟩
  rcases ui with _ | u <;> rcases br with _ | b <;>
    simp [forwardedPayload, serializePayload]

end Log
